import Mathlib

/-!
Verification of the ecom storefront test repository's specified behaviour.

The repository under verification holds the Jest test suites of a React
storefront (a Login page and an admin CreateProduct page) together with the
backend Jest configurations.  The page components exercise a REST API through
a promise-based HTTP client and report outcomes through toast notifications,
browser storage writes and navigation.  We embed the data model (response
bodies, form state, Jest configuration records) and the event handlers as
pure Lean functions producing lists of observable effects, and prove the
specified properties about them.
-/

namespace Ecom

/-- A user record as returned by the auth endpoint
(`{ id, name, email }` in the login success fixture). -/
structure UserData where
  id : Nat
  name : String
  email : String
  deriving DecidableEq, Repr

/-- A category record as returned by the category list endpoint
(`{ _id, name, slug, __v }` in the test fixtures). -/
structure Category where
  _id : String
  name : String
  slug : String
  __v : Nat
  deriving DecidableEq, Repr

/-- The response body shape consumed by both pages:
`{ success: boolean, message?: string, user?, token?, category? }`.
Absent optional fields are `none` / the empty list. -/
structure ResponseData where
  success : Bool
  message : Option String
  user : Option UserData
  token : Option String
  category : List Category
  deriving DecidableEq, Repr

/-- The outcome of one axios call: either the promise resolves with a
response body, or it rejects/throws with an error object that may carry a
`message` field. -/
inductive AxiosResult where
  | resolved (data : ResponseData)
  | rejected (message : Option String)
  deriving DecidableEq, Repr

/-- The styling options passed to a styled success toast
(`{ duration, icon, style: { background, color } }`). -/
structure ToastOptions where
  duration : Nat
  icon : String
  background : String
  color : String
  deriving DecidableEq, Repr

/-- One observable side effect of a handler run: an HTTP request, a toast,
a browser-storage write, or a navigation. -/
inductive Effect where
  | httpPostJson (url : String) (fields : List (String × String))
  | httpPostForm (url : String) (fields : List (String × String))
  | httpGet (url : String)
  | toastSuccessStyled (message : Option String) (opts : ToastOptions)
  | toastSuccess (message : String)
  | toastError (message : String)
  | localStorageSetAuth (user : Option UserData) (token : Option String)
  | navigate (path : String)
  deriving DecidableEq, Repr

/-- Whether an effect is an outgoing network request. -/
def isRequest : Effect → Bool
  | Effect.httpPostJson _ _ => true
  | Effect.httpPostForm _ _ => true
  | Effect.httpGet _ => true
  | _ => false

/-- Whether an effect is an error toast. -/
def isErrorToast : Effect → Bool
  | Effect.toastError _ => true
  | _ => false

/-- Whether an axios outcome counts as a failed attempt: a rejection, or a
resolved response whose body has `success: false`. -/
def isFailure : AxiosResult → Bool
  | AxiosResult.resolved d => !d.success
  | AxiosResult.rejected _ => true

/-! ### Login page -/

/-- The controlled state of the Login form: one email and one password
input. -/
structure LoginForm where
  email : String
  password : String
  deriving DecidableEq, Repr

/-- Modelled from the spec: the Login component source
(client/src/pages/Auth/Login.js) is not among the provided files, only its
test suite is.  The spec's test-property section states the form renders
empty, so both controlled inputs start as the empty string. -/
def loginInitialForm : LoginForm := ⟨"", ""⟩

/-- A change event fired on one of the Login inputs, carrying the new
value. -/
inductive LoginInput where
  | setEmail (v : String)
  | setPassword (v : String)
  deriving DecidableEq, Repr

/-- Modelled from the spec: the Login component source is not among the
provided files.  The spec's test-property section states typing updates the
fields, so a change event on an input sets that input's controlled value. -/
def loginUpdate (f : LoginForm) (i : LoginInput) : LoginForm :=
  match i with
  | LoginInput.setEmail v => ⟨v, f.password⟩
  | LoginInput.setPassword v => ⟨f.email, v⟩

/-- The fixed options the login success toast is invoked with, as asserted
by the login test suite: duration 5000, a praying-hands icon, green
background, white text. -/
def loginSuccessToastOptions : ToastOptions := ⟨5000, "🙏", "green", "white"⟩

/-- Modelled from the spec: the Login component's submit handler
(client/src/pages/Auth/Login.js) is not among the provided files, only its
test suite is.  Per the spec it posts email/password to the auth endpoint
`POST /api/v1/auth/login`; on a `success:true` response it shows the styled
success toast with the body's `message` field (undefined when absent),
stores the returned user/token, and navigates; on a `success:false`
response it shows an error toast with the server message when present and
the generic fallback otherwise; on a rejection it shows the generic
fallback — the test suite pins the rejection case to the generic
"Something went wrong" even when the rejection carries a message. -/
def loginHandleSubmit (f : LoginForm) (r : AxiosResult) : List Effect :=
  Effect.httpPostJson "/api/v1/auth/login"
      [("email", f.email), ("password", f.password)] ::
    match r with
    | AxiosResult.resolved d =>
        if d.success then
          [Effect.toastSuccessStyled d.message loginSuccessToastOptions,
           Effect.localStorageSetAuth d.user d.token,
           Effect.navigate "/"]
        else
          [Effect.toastError (d.message.getD "Something went wrong")]
    | AxiosResult.rejected _ => [Effect.toastError "Something went wrong"]

/-! ### CreateProduct page -/

/-- The controlled state of the CreateProduct form: name, description,
price, quantity, selected category id, shipping choice and an optionally
selected photo file. -/
structure ProductForm where
  name : String
  description : String
  price : String
  quantity : String
  category : String
  shipping : String
  photo : Option String
  deriving DecidableEq, Repr

/-- The CreateProduct form as first rendered: all fields empty. -/
def emptyProductForm : ProductForm := ⟨"", "", "", "", "", "", none⟩

/-- The form state built in the CreateProduct test suite before
submission. -/
def filledProductForm : ProductForm :=
  ⟨"New Product", "Product Description", "100", "10", "1", "1",
   some "photo.png"⟩

/-- The multipart FormData payload built from the CreateProduct form: all
form fields are appended, with an empty entry for an unselected photo. -/
def formDataOf (f : ProductForm) : List (String × String) :=
  [("name", f.name), ("description", f.description), ("price", f.price),
   ("quantity", f.quantity), ("photo", f.photo.getD ""),
   ("category", f.category), ("shipping", f.shipping)]

/-- Modelled from the spec: the CreateProduct component's submit handler
(client/src/pages/admin/CreateProduct.js) is not among the provided files,
only its test suite is.  Per the spec it builds a multipart payload from
the collected form fields — with no client-side validation guard — and
posts it to `POST /api/v1/product/create-product`; on a `success:true`
response it shows the "Product Created Successfully" toast and redirects
to the admin products page; on a `success:false` response it shows an
error toast with the server message when present and the generic fallback
otherwise; on a rejection/throw it shows the generic "Something went
wrong". -/
def createProductHandleCreate (f : ProductForm) (r : AxiosResult) :
    List Effect :=
  Effect.httpPostForm "/api/v1/product/create-product" (formDataOf f) ::
    match r with
    | AxiosResult.resolved d =>
        if d.success then
          [Effect.toastSuccess "Product Created Successfully",
           Effect.navigate "/dashboard/admin/products"]
        else
          [Effect.toastError (d.message.getD "Something went wrong")]
    | AxiosResult.rejected _ => [Effect.toastError "Something went wrong"]

/-- Modelled from the spec: the CreateProduct component's mount effect
(client/src/pages/admin/CreateProduct.js) is not among the provided files,
only its test suite is.  Per the spec, category options are fetched once
on mount from the category list endpoint; a `success:true` response
populates the category state, and a rejection shows an error toast — the
test suite pins its text to "Something went wrong in getting category".
Returns the effects of the mount together with the resulting category
state. -/
def createProductMount (r : AxiosResult) : List Effect × List Category :=
  (Effect.httpGet "/api/v1/category/get-category" ::
     (match r with
      | AxiosResult.resolved _ => []
      | AxiosResult.rejected _ =>
          [Effect.toastError "Something went wrong in getting category"]),
   match r with
   | AxiosResult.resolved d => if d.success then d.category else []
   | AxiosResult.rejected _ => [])

/-- The selectable options rendered in the category select: one
(value, label) pair per fetched category, keyed by its id and showing its
name. -/
def categoryOptions (cats : List Category) : List (String × String) :=
  cats.map fun c => (c._id, c.name)

/-- The category fixtures used by the CreateProduct test suite. -/
def mockCategories : List Category :=
  [⟨"1", "Category 1", "category-1", 0⟩,
   ⟨"2", "Category 2", "category-2", 0⟩]

/-! ### Backend Jest configurations -/

/-- A global coverage threshold: minimum percentages for lines and
functions. -/
structure CoverageThreshold where
  lines : Nat
  functions : Nat
  deriving DecidableEq, Repr

/-- The fields of a backend Jest configuration module. -/
structure JestConfig where
  displayName : String
  testEnvironment : String
  testMatch : List String
  collectCoverage : Bool
  collectCoverageFrom : List String
  coverageThreshold : CoverageThreshold
  deriving DecidableEq, Repr

/-- The backend Jest configuration `jest.backend.config.js`: runs the
test files of models, controllers, helpers, middlewares and config, with
an 80 percent global threshold on lines and functions. -/
def jestBackendConfig : JestConfig :=
  ⟨"backend", "node",
   ["<rootDir>/models/*.test.js", "<rootDir>/controllers/*.test.js",
    "<rootDir>/helpers/*.test.js", "<rootDir>/middlewares/*.test.js",
    "<rootDir>/models/*.test.js", "<rootDir>/config/*.test.js"],
   true,
   ["controllers/**", "helpers/**", "middlewares/**", "models/**",
    "config/**"],
   ⟨80, 80⟩⟩

/-- The first backend Jest configuration variant: the same test selection,
coverage collected from controllers, helpers, middlewares and models, with
a 100 percent global threshold on lines and functions. -/
def jestBackendConfigAltA : JestConfig :=
  ⟨"backend", "node",
   ["<rootDir>/models/*.test.js", "<rootDir>/controllers/*.test.js",
    "<rootDir>/helpers/*.test.js", "<rootDir>/middlewares/*.test.js",
    "<rootDir>/models/*.test.js", "<rootDir>/config/*.test.js"],
   true,
   ["controllers/**", "helpers/**", "middlewares/**", "models/**"],
   ⟨100, 100⟩⟩

/-- The second backend Jest configuration variant: runs only the
controllers and middlewares test files, with a 100 percent global
threshold on lines and functions. -/
def jestBackendConfigAltB : JestConfig :=
  ⟨"backend", "node",
   ["<rootDir>/controllers/*.test.js", "<rootDir>/middlewares/*.test.js"],
   true,
   ["controllers/**", "middlewares/**"],
   ⟨100, 100⟩⟩

/-- The backend directories named across the Jest configurations. -/
def backendDirs : List String :=
  ["controllers", "middlewares", "helpers", "models", "config"]

/-- Whether a testMatch pattern selects exactly the `*.test.js` files
directly under one of the given directories. -/
def isDirectTestPattern (dirs : List String) (p : String) : Bool :=
  dirs.any fun d => p == "<rootDir>/" ++ d ++ "/*.test.js"

end Ecom

namespace Ecom

/-! ### Claim theorems -/

/-- C1 counterexample: the claim says a failed login shows the
server-supplied message when one is present in the rejection; but a
rejected POST carrying the message "Invalid credentials" produces the
generic "Something went wrong" toast, and no toast with the rejection's
message. -/
theorem login_rejection_message_ignored :
    loginHandleSubmit ⟨"test@example.com", "password123"⟩
        (AxiosResult.rejected (some "Invalid credentials")) =
      [Effect.httpPostJson "/api/v1/auth/login"
         [("email", "test@example.com"), ("password", "password123")],
       Effect.toastError "Something went wrong"]
    ∧ Effect.toastError "Invalid credentials" ∉
        loginHandleSubmit ⟨"test@example.com", "password123"⟩
          (AxiosResult.rejected (some "Invalid credentials")) := by
  decide

/-- C1 (amended): every failed login attempt shows an error toast; when
the failure is a `success:false` response body the toast text is the
body's message when present and the generic fallback otherwise, while a
rejection always yields the generic "Something went wrong", regardless of
any message carried by the rejection. -/
theorem login_failure_toast (f : LoginForm) (r : AxiosResult)
    (h : isFailure r = true) :
    match r with
    | AxiosResult.rejected _ =>
        Effect.toastError "Something went wrong" ∈ loginHandleSubmit f r
    | AxiosResult.resolved d =>
        Effect.toastError (d.message.getD "Something went wrong") ∈
          loginHandleSubmit f r := by
  cases r with
  | rejected m => simp [loginHandleSubmit]
  | resolved d =>
      simp only [isFailure, Bool.not_eq_true'] at h
      simp [loginHandleSubmit, h]

/-- C1 witness: at the test's `success:false` fixture the server message
"Login Failed" is the toast text. -/
theorem login_failure_toast_witness :
    Effect.toastError "Login Failed" ∈
      loginHandleSubmit ⟨"test@example.com", "password123"⟩
        (AxiosResult.resolved ⟨false, some "Login Failed", none, none, []⟩) :=
  login_failure_toast ⟨"test@example.com", "password123"⟩
    (AxiosResult.resolved ⟨false, some "Login Failed", none, none, []⟩)
    (by decide)

/-- C2 counterexample: the claim says every message-less rejection yields
a toast with exactly the generic text "Something went wrong", including
the CreateProduct category fetch; but a rejected category fetch shows
"Something went wrong in getting category" and never the plain generic
text. -/
theorem category_fetch_toast_not_generic :
    Effect.toastError "Something went wrong in getting category" ∈
        (createProductMount (AxiosResult.rejected none)).1
    ∧ Effect.toastError "Something went wrong" ∉
        (createProductMount (AxiosResult.rejected none)).1 := by
  decide

/-- C2 (amended): a message-less rejection produces the generic
"Something went wrong" toast in the login and product-creation handlers,
but the CreateProduct category fetch instead shows "Something went wrong
in getting category". -/
theorem generic_toast_per_handler (lf : LoginForm) (pf : ProductForm) :
    Effect.toastError "Something went wrong" ∈
        loginHandleSubmit lf (AxiosResult.rejected none)
    ∧ Effect.toastError "Something went wrong" ∈
        createProductHandleCreate pf (AxiosResult.rejected none)
    ∧ Effect.toastError "Something went wrong in getting category" ∈
        (createProductMount (AxiosResult.rejected none)).1 := by
  refine ⟨?_, ?_, ?_⟩ <;>
    simp [loginHandleSubmit, createProductHandleCreate, createProductMount]

/-- C3: every login submission whose response has `success:true` stores
the returned user and token in browser storage, navigates away from the
login page, and shows the styled success toast. -/
theorem login_success_stores_and_navigates (f : LoginForm)
    (d : ResponseData) (h : d.success = true) :
    Effect.localStorageSetAuth d.user d.token ∈
        loginHandleSubmit f (AxiosResult.resolved d)
    ∧ Effect.navigate "/" ∈ loginHandleSubmit f (AxiosResult.resolved d)
    ∧ Effect.toastSuccessStyled d.message loginSuccessToastOptions ∈
        loginHandleSubmit f (AxiosResult.resolved d) := by
  refine ⟨?_, ?_, ?_⟩ <;> simp [loginHandleSubmit, h]

/-- C3 witness: at the test's `success:true` fixture (user John Doe,
token "mockToken") the storage write and navigation are emitted. -/
theorem login_success_stores_and_navigates_witness :
    Effect.localStorageSetAuth (some ⟨1, "John Doe", "test@example.com"⟩)
        (some "mockToken") ∈
      loginHandleSubmit ⟨"test@example.com", "password123"⟩
        (AxiosResult.resolved
          ⟨true, none, some ⟨1, "John Doe", "test@example.com"⟩,
           some "mockToken", []⟩) :=
  (login_success_stores_and_navigates ⟨"test@example.com", "password123"⟩
    ⟨true, none, some ⟨1, "John Doe", "test@example.com"⟩,
     some "mockToken", []⟩ rfl).1

end Ecom

namespace Ecom

/-- C4: submitting the filled CreateProduct form first posts the multipart
FormData payload to the create-product endpoint; a `success:true` response
yields the "Product Created Successfully" toast and a navigation to the
admin products page, while a `success:false` response yields an error
toast with the server message and no navigation at all. -/
theorem create_product_submit (f : ProductForm) (d : ResponseData) :
    (createProductHandleCreate f (AxiosResult.resolved d)).head? =
      some (Effect.httpPostForm "/api/v1/product/create-product"
        (formDataOf f))
    ∧ (d.success = true →
        Effect.toastSuccess "Product Created Successfully" ∈
            createProductHandleCreate f (AxiosResult.resolved d)
        ∧ Effect.navigate "/dashboard/admin/products" ∈
            createProductHandleCreate f (AxiosResult.resolved d))
    ∧ (∀ m, d.success = false → d.message = some m →
        Effect.toastError m ∈
            createProductHandleCreate f (AxiosResult.resolved d)
        ∧ ∀ p, Effect.navigate p ∉
            createProductHandleCreate f (AxiosResult.resolved d)) := by
  refine ⟨rfl, fun h => ?_, fun m h hm => ?_⟩
  · simp [createProductHandleCreate, h]
  · simp [createProductHandleCreate, h, hm]

/-- C4 witness: at the test's filled form, a `success:true` response emits
the products-page navigation and a `success:false` response with message
"Product creation failed" emits that error toast. -/
theorem create_product_submit_witness :
    Effect.navigate "/dashboard/admin/products" ∈
        createProductHandleCreate filledProductForm
          (AxiosResult.resolved ⟨true, none, none, none, []⟩)
    ∧ Effect.toastError "Product creation failed" ∈
        createProductHandleCreate filledProductForm
          (AxiosResult.resolved
            ⟨false, some "Product creation failed", none, none, []⟩) :=
  ⟨((create_product_submit filledProductForm
      ⟨true, none, none, none, []⟩).2.1 rfl).2,
   ((create_product_submit filledProductForm
      ⟨false, some "Product creation failed", none, none, []⟩).2.2
      "Product creation failed" rfl rfl).1⟩

/-- C5: every mount of the CreateProduct component issues exactly one
network request, namely a GET to the category list endpoint, and each
category of a `success:true` response appears as a selectable
(value, label) option of the category select. -/
theorem category_fetch_on_mount (r : AxiosResult) :
    (createProductMount r).1.countP isRequest = 1
    ∧ (createProductMount r).1.head? =
        some (Effect.httpGet "/api/v1/category/get-category")
    ∧ (∀ d, r = AxiosResult.resolved d → d.success = true →
        ∀ c ∈ d.category,
          (c._id, c.name) ∈ categoryOptions (createProductMount r).2) := by
  cases r with
  | resolved d =>
      refine ⟨rfl, rfl, fun e he hs c hc => ?_⟩
      cases he
      simp only [createProductMount, hs, if_true, categoryOptions]
      exact List.mem_map_of_mem _ hc
  | rejected m =>
      exact ⟨rfl, rfl, fun e he => nomatch he⟩

/-- C5 witness: with the test's two-category fixture, both categories
appear among the rendered select options. -/
theorem category_fetch_on_mount_witness :
    ("1", "Category 1") ∈
      categoryOptions (createProductMount
        (AxiosResult.resolved ⟨true, none, none, none, mockCategories⟩)).2 :=
  (category_fetch_on_mount
      (AxiosResult.resolved ⟨true, none, none, none, mockCategories⟩)).2.2
    ⟨true, none, none, none, mockCategories⟩ rfl rfl
    ⟨"1", "Category 1", "category-1", 0⟩ (by decide)

/-- C6: the Login form's email and password inputs are both the empty
string on first render, and a change event carrying value v on either
input leaves that input's value equal to v. -/
theorem login_inputs_controlled (f : LoginForm) (v : String) :
    loginInitialForm.email = "" ∧ loginInitialForm.password = ""
    ∧ (loginUpdate f (LoginInput.setEmail v)).email = v
    ∧ (loginUpdate f (LoginInput.setPassword v)).password = v :=
  ⟨rfl, rfl, rfl, rfl⟩

/-- C7: every backend Jest configuration variant selects only `*.test.js`
files directly under the backend directories it lists, always collects
coverage, and enforces a positive global threshold on both lines and
functions. -/
theorem backend_jest_configs :
    jestBackendConfig.testMatch.all (isDirectTestPattern backendDirs) = true
    ∧ jestBackendConfig.collectCoverage = true
    ∧ 0 < jestBackendConfig.coverageThreshold.lines
    ∧ 0 < jestBackendConfig.coverageThreshold.functions
    ∧ jestBackendConfigAltA.testMatch.all
        (isDirectTestPattern backendDirs) = true
    ∧ jestBackendConfigAltA.collectCoverage = true
    ∧ 0 < jestBackendConfigAltA.coverageThreshold.lines
    ∧ 0 < jestBackendConfigAltA.coverageThreshold.functions
    ∧ jestBackendConfigAltB.testMatch.all
        (isDirectTestPattern backendDirs) = true
    ∧ jestBackendConfigAltB.collectCoverage = true
    ∧ 0 < jestBackendConfigAltB.coverageThreshold.lines
    ∧ 0 < jestBackendConfigAltB.coverageThreshold.functions := by
  decide

/-- C8: every login or product-creation submission issues exactly one
network request whatever the outcome, and on a rejection every emitted
effect besides that single request is an error toast — no retry, no other
recovery. -/
theorem one_request_per_action (lf : LoginForm) (pf : ProductForm)
    (r s : AxiosResult) (m mp : Option String) :
    (loginHandleSubmit lf r).countP isRequest = 1
    ∧ (createProductHandleCreate pf s).countP isRequest = 1
    ∧ (loginHandleSubmit lf (AxiosResult.rejected m)).all
        (fun e => isRequest e || isErrorToast e) = true
    ∧ (createProductHandleCreate pf (AxiosResult.rejected mp)).all
        (fun e => isRequest e || isErrorToast e) = true := by
  refine ⟨?_, ?_, rfl, rfl⟩
  · cases r with
    | rejected m2 => rfl
    | resolved d =>
        cases hd : d.success <;>
          simp [loginHandleSubmit, hd, List.countP_cons, isRequest]
  · cases s with
    | rejected m2 => rfl
    | resolved d =>
        cases hd : d.success <;>
          simp [createProductHandleCreate, hd, List.countP_cons, isRequest]

/-- C9: on a `success:true` login response the styled success toast
carries the response body's message field verbatim (so none when the
server sends no message) and the fixed options: duration 5000, the
praying-hands icon, green background, white text. -/
theorem login_success_toast_options (f : LoginForm) (d : ResponseData)
    (h : d.success = true) :
    Effect.toastSuccessStyled d.message loginSuccessToastOptions ∈
        loginHandleSubmit f (AxiosResult.resolved d)
    ∧ loginSuccessToastOptions.duration = 5000
    ∧ loginSuccessToastOptions.icon = "🙏"
    ∧ loginSuccessToastOptions.background = "green"
    ∧ loginSuccessToastOptions.color = "white" := by
  refine ⟨?_, rfl, rfl, rfl, rfl⟩
  simp [loginHandleSubmit, h]

/-- C9 witness: at the test's `success:true` fixture, which carries no
message field, the styled success toast is emitted with message none. -/
theorem login_success_toast_options_witness :
    Effect.toastSuccessStyled none loginSuccessToastOptions ∈
      loginHandleSubmit ⟨"test@example.com", "password123"⟩
        (AxiosResult.resolved
          ⟨true, none, some ⟨1, "John Doe", "test@example.com"⟩,
           some "mockToken", []⟩) :=
  (login_success_toast_options ⟨"test@example.com", "password123"⟩
    ⟨true, none, some ⟨1, "John Doe", "test@example.com"⟩,
     some "mockToken", []⟩ rfl).1

/-- C10: the CreateProduct submit handler performs no client-side
validation: for every form state, required fields empty or not, the create
request is still issued, and when the attempt throws the only non-request
effect is the generic "Something went wrong" error toast. -/
theorem no_client_side_validation (f : ProductForm) :
    (createProductHandleCreate f (AxiosResult.rejected none)).countP
        isRequest = 1
    ∧ Effect.httpPostForm "/api/v1/product/create-product" (formDataOf f) ∈
        createProductHandleCreate f (AxiosResult.rejected none)
    ∧ (createProductHandleCreate f (AxiosResult.rejected none)).filter
        (fun e => !(isRequest e)) =
      [Effect.toastError "Something went wrong"] :=
  ⟨rfl, List.Mem.head _, rfl⟩

end Ecom
